import Mathlib

/-!
Verification of the Element Snapper capture engine.

Shallow embedding of the tile-capture-and-stitch engine of
`src/background/service_worker.js`, the scrollbar / debug-border helpers of
`src/content/utils.js`, and the message handlers of
`src/content/content-main.js`.  CSS-pixel quantities are rationals (ℚ),
physical-pixel quantities are integers (ℤ); JavaScript `Math.floor`,
`Math.ceil` and `Math.round` become `Int.floor`, `Int.ceil` and `round`.
-/

/-! ## Tile grid (captureFullElement, service_worker.js lines 317-379) -/

/-- Number of tile columns: `Math.ceil(rect.width / viewport.width)`
(service_worker.js line 318). -/
def tilesX (rectW vpW : ℚ) : ℕ := (⌈rectW / vpW⌉).toNat

/-- Number of tile rows: `Math.ceil(rect.height / viewport.height)`
(service_worker.js line 319). -/
def tilesY (rectH vpH : ℚ) : ℕ := (⌈rectH / vpH⌉).toNat

/-- Visible width of tile column `c`:
`Math.min(viewport.width, rect.width - tileX * viewport.width)`
(service_worker.js lines 368-371). -/
def visibleWidth (rectW vpW : ℚ) (c : ℕ) : ℚ := min vpW (rectW - c * vpW)

/-- Visible height of tile row `r`:
`Math.min(viewport.height, rect.height - tileY * viewport.height)`
(service_worker.js lines 372-375; identical to `rowHeight`, line 345). -/
def visibleHeight (rectH vpH : ℚ) (r : ℕ) : ℚ := min vpH (rectH - r * vpH)

/-- Element absolute position on the page: `scroll.x + rect.x`
(service_worker.js lines 314-315). -/
def elementAbs (scrollv rectv : ℚ) : ℚ := scrollv + rectv

/-- Per-tile scroll target: `elementAbsX + tileX * viewport.width`
(service_worker.js lines 350-351). -/
def targetScroll (eAbs vp : ℚ) (i : ℕ) : ℚ := eAbs + i * vp

/-- Page-absolute origin of the region a tile should capture:
`elementAbsX + tileX * viewport.width` (service_worker.js lines 378-379);
textually identical to the tile's scroll target. -/
def regionAbs (eAbs vp : ℚ) (i : ℕ) : ℚ := eAbs + i * vp

/-- Where the region landed inside the captured frame:
`regionAbsX - actualScrollX` (service_worker.js lines 410-411). -/
def viewportOffset (rAbs actual : ℚ) : ℚ := rAbs - actual

/-- Physical source origin: `Math.floor(viewportOffsetX * dpr)`
(service_worker.js lines 414-415). -/
def sourceOrigin (off dpr : ℚ) : ℤ := ⌊off * dpr⌋

/-- Physical source size: `Math.ceil(visibleWidth * dpr)`
(service_worker.js lines 416-417; the destination size, lines 425-426, uses
the same expression). -/
def sourceSize (visible dpr : ℚ) : ℤ := ⌈visible * dpr⌉

/-- Physical destination X of tile column `c`:
`Math.floor(tileX * viewport.width * dpr)` (service_worker.js line 421). -/
def destX (vpW dpr : ℚ) (c : ℕ) : ℤ := ⌊c * vpW * dpr⌋

/-- Physical destination width of tile column `c`:
`Math.ceil(visibleWidth * dpr)` (service_worker.js line 425). -/
def destWidth (rectW vpW dpr : ℚ) (c : ℕ) : ℤ := ⌈visibleWidth rectW vpW c * dpr⌉

/-- Physical row height: `Math.ceil(rowHeight * dpr)`
(service_worker.js line 346); also the destination height of every tile of
the row (line 426). -/
def rowHeightPhysical (rectH vpH dpr : ℚ) (r : ℕ) : ℤ :=
  ⌈visibleHeight rectH vpH r * dpr⌉

/-- Cumulative destination Y: starts at 0 and advances by
`rowHeightPhysical` after each completed row (service_worker.js
lines 340, 422, 460). -/
def cumulativeY (rectH vpH dpr : ℚ) : ℕ → ℤ
  | 0 => 0
  | r + 1 => cumulativeY rectH vpH dpr r + rowHeightPhysical rectH vpH dpr r

/-- Membership of physical pixel `(x, y)` in the destination rectangle of
tile `(c, r)` as drawn by the stitch loop (service_worker.js
lines 419-426, 446-450). -/
def inDestRect (rectW rectH vpW vpH dpr : ℚ) (c r : ℕ) (x y : ℤ) : Prop :=
  destX vpW dpr c ≤ x ∧ x < destX vpW dpr c + destWidth rectW vpW dpr c ∧
  cumulativeY rectH vpH dpr r ≤ y ∧
  y < cumulativeY rectH vpH dpr r + rowHeightPhysical rectH vpH dpr r

/-! ## Tile planner as a list (the nested loops of captureFullElement,
service_worker.js lines 343-461, row-major: `tileY` outer, `tileX` inner) -/

/-- One planned tile. -/
structure Tile where
  col : ℕ
  row : ℕ
  scrollTargetX : ℚ
  scrollTargetY : ℚ
  visibleW : ℚ
  visibleH : ℚ
  deriving DecidableEq, Repr

/-- The ordered sequence of tiles visited by the nested capture loops of
`captureFullElement` (service_worker.js lines 343-375): `tileY` from 0 to
`tilesY - 1` outermost, `tileX` from 0 to `tilesX - 1` innermost, each tile
carrying the scroll target of lines 350-351 and the visible size of
lines 368-375. -/
def planTiles (scrollX scrollY rectX rectY rectW rectH vpW vpH : ℚ) : List Tile :=
  (List.range (tilesY rectH vpH)).flatMap fun r =>
    (List.range (tilesX rectW vpW)).map fun c =>
      { col := c
        row := r
        scrollTargetX := targetScroll (elementAbs scrollX rectX) vpW c
        scrollTargetY := targetScroll (elementAbs scrollY rectY) vpH r
        visibleW := visibleWidth rectW vpW c
        visibleH := visibleHeight rectH vpH r }

/-! ## Scroll driver (modelled) -/

/-- Modelled from the spec: the Scroll Driver lives in the browser
(`window.scrollTo` in content-main.js lines 208-213 followed by
`getScrollOffsets`); the environment clamps the requested offset to the
document's scrollable range `[0, documentLength - viewportLength]`
("actual may differ from requested only when the document cannot scroll
further (boundary clamp by the environment)"). -/
def clampScroll (docLen vpLen target : ℚ) : ℚ :=
  max 0 (min target (docLen - vpLen))

/-! ## Draw-call clamping (captureFullElement, service_worker.js
lines 428-451) -/

/-- Arguments of a `drawImage` call: source rectangle then destination
rectangle, all physical pixels. -/
structure DrawArgs where
  sx : ℤ
  sy : ℤ
  sw : ℤ
  sh : ℤ
  dx : ℤ
  dy : ℤ
  dw : ℤ
  dh : ℤ
  deriving DecidableEq, Repr

/-- The draw call issued for one tile (service_worker.js lines 428-451):
if the source rectangle is inside the captured frame it is drawn as is;
otherwise the source origin is clamped to `[0, imageSize - 1]` and the
source size to `origin + size ≤ imageSize`, a non-positive clamped size is
skipped (`none`), and the clamped source is drawn into the unchanged
destination rectangle `(dx, dy, dw, dh)`. -/
def tileDrawCall (sx sy sw sh dx dy dw dh imgW imgH : ℤ) : Option DrawArgs :=
  if sx < 0 ∨ sy < 0 ∨ imgW < sx + sw ∨ imgH < sy + sh then
    let clampedSX := max 0 (min sx (imgW - 1))
    let clampedSY := max 0 (min sy (imgH - 1))
    let clampedWidth := min sw (imgW - clampedSX)
    let clampedHeight := min sh (imgH - clampedSY)
    if 0 < clampedWidth ∧ 0 < clampedHeight then
      some ⟨clampedSX, clampedSY, clampedWidth, clampedHeight, dx, dy, dw, dh⟩
    else none
  else some ⟨sx, sy, sw, sh, dx, dy, dw, dh⟩

/-! ## Canvas sizing and the element-capture pipeline
(handleElementCapture / captureFullElement / cropImageToElement) -/

/-- Physical canvas dimension `Math.round(length * dpr)` (service_worker.js
lines 324-325 for the tiled path, 529-530 for the single path). -/
def roundPhysical (len dpr : ℚ) : ℤ := round (len * dpr)

/-- Input of one element-capture job (content-script rect, scroll,
viewport, device pixel ratio; CSS pixels). -/
structure CaptureData where
  rectX : ℚ
  rectY : ℚ
  rectW : ℚ
  rectH : ℚ
  scrollX : ℚ
  scrollY : ℚ
  vpW : ℚ
  vpH : ℚ
  dpr : ℚ
  deriving DecidableEq, Repr

/-- Multi-capture decision (service_worker.js lines 276-279):
`fullCapture && (rect.width > viewport.width || rect.height > viewport.height)`. -/
def needsMultiCapture (fullCapture : Bool) (d : CaptureData) : Bool :=
  fullCapture && (decide (d.vpW < d.rectW) || decide (d.vpH < d.rectH))

/-- Observable trace of one element-capture job: its outcome, how many
`captureVisibleTab` invocations were made, and which output canvases were
allocated. -/
structure JobTrace where
  result : Except String Unit
  captureCalls : ℕ
  canvasAllocs : List (ℤ × ℤ)
  deriving Repr

/-- The validation / allocation prefix of `cropImageToElement`
(service_worker.js lines 519-580), run on a frame of physical size
`imgW × imgH`: zero-dimension check (line 524), raster ceiling check
(lines 533-535), canvas allocation (line 546), source-bounds check with
clamping and the completely-outside error (lines 552-572).  All errors are
rethrown with the `Crop failed: ` prefix (line 599). -/
def cropImageToElementRun (d : CaptureData) (imgW imgH : ℤ) :
    Except String Unit × List (ℤ × ℤ) :=
  if d.rectW ≤ 0 ∨ d.rectH ≤ 0 then
    (Except.error "Crop failed: Element has zero dimensions", [])
  else
    let physicalWidth := roundPhysical d.rectW d.dpr
    let physicalHeight := roundPhysical d.rectH d.dpr
    if 16384 < physicalWidth ∨ 16384 < physicalHeight then
      (Except.error "Crop failed: Element too large (max 16384px)", [])
    else
      let sx := round (d.rectX * d.dpr)
      let sy := round (d.rectY * d.dpr)
      if sx < 0 ∨ sy < 0 ∨ imgW < sx + physicalWidth ∨ imgH < sy + physicalHeight then
        let clampedWidth := min physicalWidth (imgW - max 0 sx)
        let clampedHeight := min physicalHeight (imgH - max 0 sy)
        if clampedWidth ≤ 0 ∨ clampedHeight ≤ 0 then
          (Except.error "Crop failed: Element is completely outside viewport",
            [(physicalWidth, physicalHeight)])
        else (Except.ok (), [(physicalWidth, physicalHeight)])
      else (Except.ok (), [(physicalWidth, physicalHeight)])

/-- Trace of `captureFullElement` (service_worker.js lines 310-496): the
raster-ceiling check on `Math.round(rect * dpr)` (lines 323-329) precedes
the canvas allocation (line 332) and the tile loop; past the check the loop
performs one `captureVisibleTab` call per planned tile (line 404). -/
def captureFullElementRunTrace (d : CaptureData) : JobTrace :=
  let finalWidth := roundPhysical d.rectW d.dpr
  let finalHeight := roundPhysical d.rectH d.dpr
  if 16384 < finalWidth ∨ 16384 < finalHeight then
    { result := Except.error ("Element too large: " ++ toString finalWidth ++ "×"
        ++ toString finalHeight ++ "px exceeds max 16384px")
      captureCalls := 0
      canvasAllocs := [] }
  else
    { result := Except.ok ()
      captureCalls := tilesX d.rectW d.vpW * tilesY d.rectH d.vpH
      canvasAllocs := [(finalWidth, finalHeight)] }

/-- Trace of `handleElementCapture` (service_worker.js lines 267-299):
multi-capture delegates to `captureFullElement`; the single-capture branch
calls `captureVisibleTab` first (line 286) and only then runs
`cropImageToElement` (line 287), where all validation lives. -/
def handleElementCaptureRun (fullCapture : Bool) (d : CaptureData)
    (imgW imgH : ℤ) : JobTrace :=
  if needsMultiCapture fullCapture d then captureFullElementRunTrace d
  else
    let crop := cropImageToElementRun d imgW imgH
    { result := crop.1, captureCalls := 1, canvasAllocs := crop.2 }

/-! ## Cleanup / restore paths (service_worker.js lines 480-495 and
231-240) -/

/-- The cosmetic restore operations a capture job can attempt. -/
inductive RestoreAction where
  | showScrollbarsMsg
  | hideDebugBorderMsg
  | scrollRestoreMsg
  deriving DecidableEq, Repr

/-- Restore-failure environment: which cleanup messages would throw, and
whether the capture body itself failed. -/
structure CleanupEnv where
  bodyFails : Bool
  showScrollbarsFails : Bool
  hideDebugBorderFails : Bool
  scrollRestoreFails : Bool
  deriving DecidableEq, Repr

/-- Outcome of a job together with the cleanup actions that were attempted
and the warnings that were logged for swallowed cleanup failures. -/
structure RunOut where
  result : Except String Unit
  attempted : List RestoreAction
  warnings : List String
  deriving Repr

/-- The `finally` block of `captureFullElement` (service_worker.js
lines 480-495): one `try/catch` around the `showScrollbars` message, then —
only in debug mode — a second, independent `try/catch` around
`hideDebugBorder`; each catch logs a warning and swallows the error; the
body's result (success or failure) is returned unchanged.  No scroll
position restore is issued on this path. -/
def captureFullElementFinally (debugMode : Bool) (env : CleanupEnv)
    (bodyResult : Except String Unit) : RunOut :=
  let w1 := if env.showScrollbarsFails then ["Failed to restore scrollbars"] else []
  let hide :=
    if debugMode then
      ([RestoreAction.hideDebugBorderMsg],
        if env.hideDebugBorderFails then ["Failed to hide debug border"] else [])
    else ([], [])
  { result := bodyResult
    attempted := RestoreAction.showScrollbarsMsg :: hide.1
    warnings := w1 ++ hide.2 }

/-- The `finally` block of `captureFullPage` (service_worker.js
lines 231-240): a single `try/catch` containing the `showScrollbars`
message and then `scrollToPosition(0, 0)`; if `showScrollbars` throws, the
scroll restore is never reached; the catch logs and swallows; the body's
result is returned unchanged. -/
def captureFullPageFinally (env : CleanupEnv)
    (bodyResult : Except String Unit) : RunOut :=
  if env.showScrollbarsFails then
    { result := bodyResult
      attempted := [RestoreAction.showScrollbarsMsg]
      warnings := ["Failed to restore scrollbars"] }
  else
    { result := bodyResult
      attempted := [RestoreAction.showScrollbarsMsg, RestoreAction.scrollRestoreMsg]
      warnings := if env.scrollRestoreFails then ["Failed to restore scrollbars"] else [] }

/-! ## Content-script DOM helpers (utils.js, content-main.js) -/

/-- Saved overflow styles captured by `hideScrollbars` (utils.js
lines 194-209); its `restore` closure writes them back. -/
structure ScrollbarState where
  savedHtmlOverflow : String
  savedBodyOverflow : String
  deriving DecidableEq, Repr

/-- The page state the helpers mutate: the two overflow styles and the
optional debug-border element (identified by
`element-screenshot-debug-border`). -/
structure PageDom where
  htmlOverflow : String
  bodyOverflow : String
  debugBorder : Option (ℚ × ℚ × ℚ × ℚ)
  deriving DecidableEq, Repr

/-- `showScrollbars(scrollbarState)` (utils.js lines 215-219): calls
`scrollbarState.restore()` only when the state object is present
(`if (scrollbarState && scrollbarState.restore)`); with a null state it
does nothing. -/
def showScrollbars (st : Option ScrollbarState) (dom : PageDom) : PageDom :=
  match st with
  | some s => { dom with htmlOverflow := s.savedHtmlOverflow,
                         bodyOverflow := s.savedBodyOverflow }
  | none => dom

/-- `hideDebugBorder()` (utils.js lines 256-259): looks up the debug-border
element and removes it only if present (`if (border) border.remove()`). -/
def hideDebugBorder (dom : PageDom) : PageDom :=
  match dom.debugBorder with
  | some _ => { dom with debugBorder := none }
  | none => dom

/-! ## Filenames (service_worker.js lines 249-258, 610-629) -/

/-- One step of `elementName.replace(/[^a-z0-9_-]/gi, '_')`
(service_worker.js lines 622-623): characters outside `[A-Za-z0-9_-]`
become an underscore. -/
def sanitizeChar (c : Char) : Char :=
  if c.isAlpha ∨ c.isDigit ∨ c = '_' ∨ c = '-' then c else '_'

/-- `elementName.replace(/[^a-z0-9_-]/gi, '_').substring(0, 30)`
(service_worker.js lines 622-624). -/
def safeName (elementName : List Char) : List Char :=
  (elementName.map sanitizeChar).take 30

/-- `elementInfo.id || elementInfo.tagName.toLowerCase() || 'element'`
(service_worker.js lines 617-619); the empty string is falsy. -/
def elementNameOf (id tagName : String) : List Char :=
  if id ≠ "" then id.data
  else if tagName.toLower ≠ "" then tagName.toLower.data
  else "element".data

/-- `format === 'jpg' ? 'jpg' : 'png'` (service_worker.js lines 255, 626). -/
def extOf (format : String) : String := if format = "jpg" then "jpg" else "png"

/-- `generateFilename` (service_worker.js lines 610-629); the timestamp is
environment input (derived from `new Date()`). -/
def generateFilename (id tagName format timestamp : String) : String :=
  "screenshot_" ++ String.mk (safeName (elementNameOf id tagName)) ++ "_"
    ++ timestamp ++ "." ++ extOf format

/-- `generateViewportFilename` (service_worker.js lines 249-258). -/
def generateViewportFilename (mode format timestamp : String) : String :=
  "screenshot_" ++ mode ++ "_" ++ timestamp ++ "." ++ extOf format

/-! ## Small helper lemmas -/

/-- Every character emitted by the sanitizer is in `[A-Za-z0-9_-]`. -/
lemma sanitizeChar_mem_class (a : Char) :
    (sanitizeChar a).isAlpha ∨ (sanitizeChar a).isDigit ∨
    sanitizeChar a = '_' ∨ sanitizeChar a = '-' := by
  unfold sanitizeChar
  split
  · assumption
  · right; right; left; rfl

/-- Rounding equals ceiling on half-integers (`Math.round` rounds .5 up). -/
lemma round_intCast_div_two (n : ℤ) : round ((n : ℚ) / 2) = ⌈(n : ℚ) / 2⌉ := by
  rcases Int.even_or_odd n with ⟨k, hk⟩ | ⟨k, hk⟩
  · have h2 : (n : ℚ) / 2 = (k : ℚ) := by rw [hk]; push_cast; ring
    rw [h2, round_intCast, Int.ceil_intCast]
  · have h2 : (n : ℚ) / 2 = (k : ℚ) + 1 / 2 := by rw [hk]; push_cast; ring
    rw [h2, round_eq]
    have h3 : (k : ℚ) + 1 / 2 + 1 / 2 = ((k + 1 : ℤ) : ℚ) := by push_cast; ring
    rw [h3, Int.floor_intCast]
    refine (Int.ceil_eq_iff.mpr ⟨?_, ?_⟩).symm
    · push_cast; norm_num
    · push_cast; norm_num

/-- For the DPR values 1, 1.5, 2, 3 and an integer CSS length, the JS
`Math.round` canvas dimension equals the ceiling the spec's data model
uses. -/
lemma roundPhysical_eq_ceil (w : ℕ) (dpr : ℚ)
    (hd : dpr = 1 ∨ dpr = 3 / 2 ∨ dpr = 2 ∨ dpr = 3) :
    roundPhysical (w : ℚ) dpr = ⌈(w : ℚ) * dpr⌉ := by
  have key : ∀ m : ℤ, (w : ℚ) * dpr = (m : ℚ) / 2 →
      roundPhysical (w : ℚ) dpr = ⌈(w : ℚ) * dpr⌉ := by
    intro m hm
    unfold roundPhysical
    rw [hm, round_intCast_div_two]
  rcases hd with h | h | h | h <;> subst h
  · exact key (2 * w) (by push_cast; ring)
  · exact key (3 * w) (by push_cast; ring)
  · exact key (4 * w) (by push_cast; ring)
  · exact key (6 * w) (by push_cast; ring)

/-! ## C9 -/

/-- C9: calling `showScrollbars` with a null saved state, or
`hideDebugBorder` when no debug-border element exists, changes nothing and
never throws (both are total functions on the page state). -/
theorem c9_idempotent_cleanup (dom dom' : PageDom) (h : dom'.debugBorder = none) :
    showScrollbars none dom = dom ∧ hideDebugBorder dom' = dom' := by
  constructor
  · rfl
  · unfold hideDebugBorder
    rw [h]

/-- Witness for C9 at a concrete page state. -/
theorem c9_idempotent_cleanup_w :
    showScrollbars none ⟨"auto", "visible", none⟩ = ⟨"auto", "visible", none⟩ ∧
    hideDebugBorder ⟨"auto", "visible", none⟩ = ⟨"auto", "visible", none⟩ :=
  c9_idempotent_cleanup ⟨"auto", "visible", none⟩ ⟨"auto", "visible", none⟩ rfl

/-! ## C10 -/

/-- C10: every delivered filename is
`screenshot_<name>_<timestamp>.<ext>`: the extension is `jpg` exactly when
the format is `jpg` and `png` otherwise; for element captures the name is
the sanitized id / tag name, every character outside `[A-Za-z0-9_-]`
replaced by `_`, truncated to at most 30 characters. -/
theorem c10_filename_shape (id tagName format ts : String) :
    (generateFilename id tagName format ts =
      "screenshot_" ++ String.mk (safeName (elementNameOf id tagName)) ++ "_"
        ++ ts ++ "." ++ extOf format) ∧
    (extOf format = "jpg" ↔ format = "jpg") ∧
    (∀ f : String, f ≠ "jpg" → extOf f = "png") ∧
    (safeName (elementNameOf id tagName)).length ≤ 30 ∧
    (∀ c ∈ safeName (elementNameOf id tagName),
      c.isAlpha ∨ c.isDigit ∨ c = '_' ∨ c = '-') ∧
    (∀ mode, generateViewportFilename mode format ts =
      "screenshot_" ++ mode ++ "_" ++ ts ++ "." ++ extOf format) := by
  refine ⟨rfl, ?_, ?_, ?_, ?_, fun _ => rfl⟩
  · unfold extOf
    split
    · simp_all
    · simp_all
  · intro f hf
    unfold extOf
    rw [if_neg hf]
  · unfold safeName
    rw [List.length_take]
    exact min_le_left _ _
  · intro c hc
    unfold safeName at hc
    have hc' := List.take_subset 30 _ hc
    rcases List.mem_map.mp hc' with ⟨a, _, ha⟩
    rw [← ha]
    exact sanitizeChar_mem_class a

/-! ## C8 -/

/-- C8 counterexample: on the multi-tile element path
(`captureFullElement`), restoration of the original scroll position is
never attempted on any exit path — the `finally` block only sends
`showScrollbars` and (in debug mode) `hideDebugBorder`. -/
theorem c8_no_scroll_restore_on_element_path :
    RestoreAction.scrollRestoreMsg ∉
      (captureFullElementFinally true ⟨false, false, false, false⟩
        (Except.ok ())).attempted := by
  unfold captureFullElementFinally
  simp

/-- C8 amended: every exit path of either multi-tile capture attempts the
scrollbar restore, cleanup failures are swallowed and never change the
job's result; the debug-border hide is attempted exactly in debug mode; the
scroll-position restore exists only on the full-page path and only runs
when the scrollbar restore did not throw; the element path never attempts
it. -/
theorem c8_cleanup_amended (debugMode : Bool) (env : CleanupEnv)
    (body : Except String Unit) :
    (captureFullElementFinally debugMode env body).result = body ∧
    (captureFullPageFinally env body).result = body ∧
    RestoreAction.showScrollbarsMsg ∈
      (captureFullElementFinally debugMode env body).attempted ∧
    RestoreAction.showScrollbarsMsg ∈
      (captureFullPageFinally env body).attempted ∧
    (RestoreAction.hideDebugBorderMsg ∈
        (captureFullElementFinally debugMode env body).attempted ↔
      debugMode = true) ∧
    (RestoreAction.scrollRestoreMsg ∈
        (captureFullPageFinally env body).attempted ↔
      env.showScrollbarsFails = false) ∧
    RestoreAction.scrollRestoreMsg ∉
      (captureFullElementFinally debugMode env body).attempted := by
  unfold captureFullElementFinally captureFullPageFinally
  rcases env with ⟨b, s, hd, sr⟩
  cases debugMode <;> cases s <;> simp

/-! ## C2 -/

/-- C2 (code bug): with frame 1000×500 and computed source rectangle
`(sx, sy, sw, sh) = (500, 0, 600, 500)`, the clamp branch fires and clamps
the source width to 500, but the destination rectangle is still drawn at
the unclamped width 600 — the clamped source is stretched, contradicting
the spec's mandate that clamped source and destination dimensions stay
consistent. -/
theorem c2_clamped_draw_stretches :
    tileDrawCall 500 0 600 500 0 0 600 500 1000 500 =
      some ⟨500, 0, 500, 500, 0, 0, 600, 500⟩ ∧
    ((500 : ℤ) ≠ 600) := by
  constructor
  · decide
  · decide

/-! ## C1 -/

/-- C1: the extraction offset of a tile is `regionAbs - actual` (the
scroll-driver-reported position), never `regionAbs - requested`; when the
boundary clamp makes the actual scroll differ from the requested one, the
offset is nonzero, and the physical source origin is
`floor((regionAbs - actual) * dpr)`. -/
theorem c1_boundary_offset (scrollX rectX vpW dpr docW : ℚ) (c : ℕ)
    (h : clampScroll docW vpW (targetScroll (elementAbs scrollX rectX) vpW c)
      ≠ targetScroll (elementAbs scrollX rectX) vpW c) :
    viewportOffset (regionAbs (elementAbs scrollX rectX) vpW c)
        (clampScroll docW vpW (targetScroll (elementAbs scrollX rectX) vpW c))
      = regionAbs (elementAbs scrollX rectX) vpW c
        - clampScroll docW vpW (targetScroll (elementAbs scrollX rectX) vpW c) ∧
    sourceOrigin
        (viewportOffset (regionAbs (elementAbs scrollX rectX) vpW c)
          (clampScroll docW vpW (targetScroll (elementAbs scrollX rectX) vpW c)))
        dpr
      = ⌊(regionAbs (elementAbs scrollX rectX) vpW c
          - clampScroll docW vpW (targetScroll (elementAbs scrollX rectX) vpW c))
            * dpr⌋ ∧
    viewportOffset (regionAbs (elementAbs scrollX rectX) vpW c)
        (clampScroll docW vpW (targetScroll (elementAbs scrollX rectX) vpW c))
      ≠ 0 := by
  refine ⟨rfl, rfl, ?_⟩
  unfold viewportOffset regionAbs
  unfold targetScroll at h
  exact sub_ne_zero.mpr (Ne.symm h)

/-- Witness for C1: document width 1700, viewport width 1000, element
absolute X 1000 (scroll 0, rect.x 1000), tile column 0: the requested
scroll 1000 clamps to actual 700, the extraction offset is 300 CSS px
(not 0), and at dpr 2 the physical source origin is 600. -/
theorem c1_boundary_offset_w :
    clampScroll 1700 1000 (targetScroll (elementAbs 0 1000) 1000 0) = 700 ∧
    viewportOffset (regionAbs (elementAbs 0 1000) 1000 0)
        (clampScroll 1700 1000 (targetScroll (elementAbs 0 1000) 1000 0)) = 300 ∧
    sourceOrigin 300 2 = 600 ∧
    viewportOffset (regionAbs (elementAbs 0 1000) 1000 0)
        (clampScroll 1700 1000 (targetScroll (elementAbs 0 1000) 1000 0)) ≠ 0 := by
  have hclamp : clampScroll 1700 1000 (targetScroll (elementAbs 0 1000) 1000 0) = 700 := by
    unfold clampScroll targetScroll elementAbs
    norm_num
  have hmain := c1_boundary_offset 0 1000 1000 2 1700 0
    (by rw [hclamp]; unfold targetScroll elementAbs; norm_num)
  refine ⟨hclamp, ?_, ?_, hmain.2.2⟩
  · rw [hclamp]
    unfold viewportOffset regionAbs elementAbs
    norm_num
  · unfold sourceOrigin
    have h6 : (300 : ℚ) * 2 = ((600 : ℤ) : ℚ) := by norm_num
    rw [h6, Int.floor_intCast]

/-! ## C4 -/

/-- Length of a row-major double loop rendered as `flatMap` over ranges. -/
lemma flatMapRange_length {α : Type} (n m : ℕ) (f : ℕ → ℕ → α) :
    ((List.range n).flatMap fun r => (List.range m).map (f r)).length = n * m := by
  induction n with
  | zero => simp
  | succ k ih =>
      rw [List.range_succ, List.flatMap_append]
      simp [ih, Nat.succ_mul]

/-- Indexing a row-major double loop: entry `r * m + c` is `f r c`. -/
lemma flatMapRange_getElem {α : Type} (n m : ℕ) (f : ℕ → ℕ → α) (r c : ℕ)
    (hr : r < n) (hc : c < m) :
    ((List.range n).flatMap fun i => (List.range m).map (f i))[r * m + c]?
      = some (f r c) := by
  induction n with
  | zero => exact absurd hr (Nat.not_lt_zero r)
  | succ k ih =>
      rw [List.range_succ, List.flatMap_append, List.getElem?_append,
        flatMapRange_length k m f]
      rcases Nat.lt_or_ge r k with h | h
      · have hlt : r * m + c < k * m := by
          have h1 : r * m + c < (r + 1) * m := by
            calc r * m + c < r * m + m := by omega
            _ = (r + 1) * m := by ring
          exact lt_of_lt_of_le h1 (Nat.mul_le_mul_right m h)
        rw [if_pos hlt]
        exact ih h
      · have hrk : r = k := by omega
        subst hrk
        have hge : ¬ (r * m + c < r * m) := by omega
        rw [if_neg hge]
        have hsub : r * m + c - r * m = c := by omega
        rw [hsub]
        simp [List.getElem?_map, List.getElem?_range hc]

/-- C4: the planner yields exactly `tilesX * tilesY` tiles in row-major
order; the tile at row-major index `r * tilesX + c` is tile `(c, r)`, its
scroll target is the region's page-absolute origin plus
`(c * vpW, r * vpH)`, and its visible size is
`min(vpW, rectW - c * vpW) × min(vpH, rectH - r * vpH)`. -/
theorem c4_tile_planner (scrollX scrollY rectX rectY rectW rectH vpW vpH : ℚ)
    (c r : ℕ) (hc : c < tilesX rectW vpW) (hr : r < tilesY rectH vpH) :
    (planTiles scrollX scrollY rectX rectY rectW rectH vpW vpH).length
      = tilesX rectW vpW * tilesY rectH vpH ∧
    (planTiles scrollX scrollY rectX rectY rectW rectH vpW vpH)[
        r * tilesX rectW vpW + c]?
      = some { col := c, row := r,
               scrollTargetX := (scrollX + rectX) + c * vpW,
               scrollTargetY := (scrollY + rectY) + r * vpH,
               visibleW := min vpW (rectW - c * vpW),
               visibleH := min vpH (rectH - r * vpH) } := by
  constructor
  · rw [planTiles, flatMapRange_length]
    ring
  · rw [planTiles, flatMapRange_getElem _ _ _ r c hr hc]
    rfl

/-- Witness for C4: a 1200×900 element with a 1000×800 viewport plans a
2×2 grid; the tile at row-major index 3 is tile `(1,1)` with scroll target
`(1000, 800)` and remainder visible size `200×100`. -/
theorem c4_tile_planner_w :
    (planTiles 0 0 0 0 1200 900 1000 800).length
      = tilesX 1200 1000 * tilesY 900 800 ∧
    (planTiles 0 0 0 0 1200 900 1000 800)[1 * tilesX 1200 1000 + 1]?
      = some { col := 1, row := 1,
               scrollTargetX := (0 + 0 : ℚ) + 1 * 1000,
               scrollTargetY := (0 + 0 : ℚ) + 1 * 800,
               visibleW := min 1000 (1200 - 1 * 1000),
               visibleH := min 800 (900 - 1 * 800) } := by
  have hx : tilesX 1200 1000 = 2 := by
    have h : ⌈(1200 : ℚ) / 1000⌉ = 2 := by
      rw [Int.ceil_eq_iff]
      norm_num
    simp [tilesX, h]
  have hy : tilesY 900 800 = 2 := by
    have h : ⌈(900 : ℚ) / 800⌉ = 2 := by
      rw [Int.ceil_eq_iff]
      norm_num
    simp [tilesY, h]
  exact c4_tile_planner 0 0 0 0 1200 900 1000 800 1 1
    (by rw [hx]; norm_num) (by rw [hy]; norm_num)

/-! ## C5 -/

/-- C5 counterexample: a 10×0 region (zero height) with `fullCapture` off
takes the single-capture path, so `captureVisibleTab` is invoked once
before `cropImageToElement` detects the zero dimension — the job fails
with the zero-dimensions error, but after one capture invocation, not
zero. -/
theorem c5_capture_precedes_zero_check :
    (handleElementCaptureRun false ⟨0, 0, 10, 0, 0, 0, 1000, 800, 1⟩ 1000 800).result
      = Except.error "Crop failed: Element has zero dimensions" ∧
    (handleElementCaptureRun false ⟨0, 0, 10, 0, 0, 0, 1000, 800, 1⟩ 1000 800).captureCalls
      = 1 ∧
    ¬ (handleElementCaptureRun false ⟨0, 0, 10, 0, 0, 0, 1000, 800, 1⟩ 1000 800).captureCalls
      = 0 := by
  have hm : needsMultiCapture false ⟨0, 0, 10, 0, 0, 0, 1000, 800, 1⟩ = false := rfl
  unfold handleElementCaptureRun
  rw [hm]
  unfold cropImageToElementRun
  norm_num

/-- C5 amended: a region with `width ≤ 0` or `height ≤ 0` on the
single-capture path (which every such region takes unless `fullCapture` is
on and the other dimension exceeds the viewport) fails with the
zero-dimensions error, but only after exactly one `captureVisibleTab`
invocation — the validation lives in `cropImageToElement`, which runs
after the capture; no output canvas is allocated. -/
theorem c5_zero_dims_amended (fullCapture : Bool) (d : CaptureData)
    (imgW imgH : ℤ) (hzero : d.rectW ≤ 0 ∨ d.rectH ≤ 0)
    (hsingle : needsMultiCapture fullCapture d = false) :
    (handleElementCaptureRun fullCapture d imgW imgH).result
      = Except.error "Crop failed: Element has zero dimensions" ∧
    (handleElementCaptureRun fullCapture d imgW imgH).captureCalls = 1 ∧
    (handleElementCaptureRun fullCapture d imgW imgH).canvasAllocs = [] := by
  unfold handleElementCaptureRun
  rw [hsingle]
  unfold cropImageToElementRun
  rw [if_pos hzero]
  simp

/-- Witness for C5 amended at the 10×0 single-path region. -/
theorem c5_zero_dims_amended_w :
    (handleElementCaptureRun false ⟨0, 0, 10, 0, 0, 0, 900, 700, 1⟩ 900 700).result
      = Except.error "Crop failed: Element has zero dimensions" ∧
    (handleElementCaptureRun false ⟨0, 0, 10, 0, 0, 0, 900, 700, 1⟩ 900 700).captureCalls
      = 1 ∧
    (handleElementCaptureRun false ⟨0, 0, 10, 0, 0, 0, 900, 700, 1⟩ 900 700).canvasAllocs
      = [] :=
  c5_zero_dims_amended false ⟨0, 0, 10, 0, 0, 0, 900, 700, 1⟩ 900 700
    (Or.inr (by norm_num)) rfl

/-! ## C6 -/

/-- Rounding an integer-valued product: `Math.round(n) = n`. -/
lemma roundPhysical_natCast_one (n : ℕ) : roundPhysical (n : ℚ) 1 = n := by
  unfold roundPhysical
  rw [mul_one, round_natCast]

/-- A single-path job with positive dimensions past the raster ceiling:
one capture, then the too-large error, no canvas. -/
lemma singlePath_too_large (fullCapture : Bool) (d : CaptureData)
    (imgW imgH : ℤ) (hmc : needsMultiCapture fullCapture d = false)
    (hnz : ¬(d.rectW ≤ 0 ∨ d.rectH ≤ 0))
    (hbig : 16384 < roundPhysical d.rectW d.dpr ∨ 16384 < roundPhysical d.rectH d.dpr) :
    handleElementCaptureRun fullCapture d imgW imgH =
      { result := Except.error "Crop failed: Element too large (max 16384px)",
        captureCalls := 1, canvasAllocs := [] } := by
  unfold handleElementCaptureRun
  rw [hmc, if_neg Bool.false_ne_true]
  unfold cropImageToElementRun
  rw [if_neg hnz, if_pos hbig]

/-- C6 counterexample: a 20000×100 region at dpr 1 with `fullCapture` off
takes the single-capture path; the job fails with the raster-too-large
error, but only after one `captureVisibleTab` invocation — not before any
capture work. -/
theorem c6_capture_precedes_ceiling_check :
    (handleElementCaptureRun false ⟨0, 0, 20000, 100, 0, 0, 1000, 800, 1⟩ 1000 800).result
      = Except.error "Crop failed: Element too large (max 16384px)" ∧
    (handleElementCaptureRun false ⟨0, 0, 20000, 100, 0, 0, 1000, 800, 1⟩ 1000 800).captureCalls
      = 1 ∧
    ¬ (handleElementCaptureRun false ⟨0, 0, 20000, 100, 0, 0, 1000, 800, 1⟩ 1000 800).captureCalls
      = 0 := by
  have hw : roundPhysical (20000 : ℚ) 1 = 20000 := by
    have := roundPhysical_natCast_one 20000
    norm_num at this
    exact this
  rw [singlePath_too_large false ⟨0, 0, 20000, 100, 0, 0, 1000, 800, 1⟩ 1000 800 rfl
    (by norm_num)
    (Or.inl (by show (16384 : ℤ) < roundPhysical (20000 : ℚ) 1; rw [hw]; norm_num))]
  norm_num

/-- C6 amended: a region whose rounded physical size exceeds 16384 always
fails with the raster-too-large error before any output canvas is
allocated; on the tiled path this happens before any capture invocation,
but on the single-capture path one `captureVisibleTab` call has already
been made when the check (inside `cropImageToElement`) fires. -/
theorem c6_raster_ceiling_amended (fullCapture : Bool) (d : CaptureData)
    (imgW imgH : ℤ)
    (hbig : 16384 < roundPhysical d.rectW d.dpr ∨ 16384 < roundPhysical d.rectH d.dpr)
    (hposW : 0 < d.rectW) (hposH : 0 < d.rectH) :
    (handleElementCaptureRun fullCapture d imgW imgH).canvasAllocs = [] ∧
    (handleElementCaptureRun fullCapture d imgW imgH).captureCalls
      = (if needsMultiCapture fullCapture d then 0 else 1) ∧
    (handleElementCaptureRun fullCapture d imgW imgH).result
      = Except.error (if needsMultiCapture fullCapture d then
          "Element too large: " ++ toString (roundPhysical d.rectW d.dpr) ++ "×"
            ++ toString (roundPhysical d.rectH d.dpr) ++ "px exceeds max 16384px"
        else "Crop failed: Element too large (max 16384px)") := by
  by_cases hmc : needsMultiCapture fullCapture d = true
  · unfold handleElementCaptureRun captureFullElementRunTrace
    rw [hmc, if_pos rfl, if_pos hbig]
    simp [hmc]
  · have hmc' : needsMultiCapture fullCapture d = false := by
      simpa using hmc
    rw [singlePath_too_large fullCapture d imgW imgH hmc'
      (by push_neg; exact ⟨hposW, hposH⟩) hbig]
    simp [hmc']

/-- Witness for C6 amended on the tiled path: a 20000×100 element with
`fullCapture` on and viewport 1000×800 is rejected with zero capture calls
and no canvas allocation. -/
theorem c6_raster_ceiling_amended_w :
    (handleElementCaptureRun true ⟨0, 0, 20000, 100, 0, 0, 1000, 800, 1⟩ 1000 800).canvasAllocs
      = [] ∧
    (handleElementCaptureRun true ⟨0, 0, 20000, 100, 0, 0, 1000, 800, 1⟩ 1000 800).captureCalls
      = (if needsMultiCapture true ⟨0, 0, 20000, 100, 0, 0, 1000, 800, 1⟩ then 0 else 1) ∧
    (handleElementCaptureRun true ⟨0, 0, 20000, 100, 0, 0, 1000, 800, 1⟩ 1000 800).result
      = Except.error (if needsMultiCapture true ⟨0, 0, 20000, 100, 0, 0, 1000, 800, 1⟩ then
          "Element too large: "
            ++ toString (roundPhysical (⟨0, 0, 20000, 100, 0, 0, 1000, 800, 1⟩ : CaptureData).rectW
                 (⟨0, 0, 20000, 100, 0, 0, 1000, 800, 1⟩ : CaptureData).dpr) ++ "×"
            ++ toString (roundPhysical (⟨0, 0, 20000, 100, 0, 0, 1000, 800, 1⟩ : CaptureData).rectH
                 (⟨0, 0, 20000, 100, 0, 0, 1000, 800, 1⟩ : CaptureData).dpr)
            ++ "px exceeds max 16384px"
        else "Crop failed: Element too large (max 16384px)") := by
  have hw : roundPhysical (20000 : ℚ) 1 = 20000 := by
    have := roundPhysical_natCast_one 20000
    norm_num at this
    exact this
  exact c6_raster_ceiling_amended true ⟨0, 0, 20000, 100, 0, 0, 1000, 800, 1⟩ 1000 800
    (Or.inl (by show (16384 : ℤ) < roundPhysical (20000 : ℚ) 1; rw [hw]; norm_num))
    (by norm_num) (by norm_num)

/-! ## C7 -/

/-- Concrete evaluation of `Math.round` on a rational. -/
lemma round_rat_eq (q : ℚ) (n : ℤ) (h1 : (n : ℚ) ≤ q + 1 / 2)
    (h2 : q + 1 / 2 < n + 1) : round q = n := by
  rw [round_eq]
  exact Int.floor_eq_iff.mpr ⟨h1, h2⟩

/-- Concrete evaluation of `Math.ceil` on a rational. -/
lemma ceil_rat_eq (q : ℚ) (n : ℤ) (h1 : (n : ℚ) - 1 < q) (h2 : q ≤ n) :
    ⌈q⌉ = n :=
  Int.ceil_eq_iff.mpr ⟨h1, h2⟩

/-- Row heights of a 1000-px-high region tiled by a 333-px viewport at
dpr 3/2: three full rows of 500 physical px and a remainder row of 2. -/
lemma rowHeights_1000_333 :
    rowHeightPhysical 1000 333 (3 / 2) 0 = 500 ∧
    rowHeightPhysical 1000 333 (3 / 2) 1 = 500 ∧
    rowHeightPhysical 1000 333 (3 / 2) 2 = 500 ∧
    rowHeightPhysical 1000 333 (3 / 2) 3 = 2 := by
  refine ⟨?_, ?_, ?_, ?_⟩
  · unfold rowHeightPhysical visibleHeight
    rw [show min (333 : ℚ) (1000 - (0 : ℕ) * 333) = 333 from by norm_num [min_def]]
    exact ceil_rat_eq _ 500 (by norm_num) (by norm_num)
  · unfold rowHeightPhysical visibleHeight
    rw [show min (333 : ℚ) (1000 - (1 : ℕ) * 333) = 333 from by norm_num [min_def]]
    exact ceil_rat_eq _ 500 (by norm_num) (by norm_num)
  · unfold rowHeightPhysical visibleHeight
    rw [show min (333 : ℚ) (1000 - (2 : ℕ) * 333) = 333 from by norm_num [min_def]]
    exact ceil_rat_eq _ 500 (by norm_num) (by norm_num)
  · unfold rowHeightPhysical visibleHeight
    rw [show min (333 : ℚ) (1000 - (3 : ℕ) * 333) = 1 from by norm_num [min_def]]
    exact ceil_rat_eq _ 2 (by norm_num) (by norm_num)

/-- C7 counterexample: region 333×1000 CSS px, viewport 1000×333, dpr 3/2:
the tiled path allocates a `Math.round` canvas of 500×1500 physical px
(service_worker.js lines 324-325, 332), while the ceil-accumulated row
extent of §4.1 is 500 + 500 + 500 + 2 = 1502 ≠ 1500 — the allocated
surface does not equal the ceil-accumulated dimensions. -/
theorem c7_tiled_surface_not_ceil_accumulated :
    (captureFullElementRunTrace ⟨0, 0, 333, 1000, 0, 0, 1000, 333, 3 / 2⟩).canvasAllocs
      = [(500, 1500)] ∧
    cumulativeY 1000 333 (3 / 2) (tilesY 1000 333) = 1502 ∧
    ((1500 : ℤ) ≠ 1502) := by
  have hW : roundPhysical (333 : ℚ) (3 / 2) = 500 := by
    unfold roundPhysical
    exact round_rat_eq _ 500 (by norm_num) (by norm_num)
  have hH : roundPhysical (1000 : ℚ) (3 / 2) = 1500 := by
    unfold roundPhysical
    exact round_rat_eq _ 1500 (by norm_num) (by norm_num)
  have hty : tilesY 1000 333 = 4 := by
    have h : ⌈(1000 : ℚ) / 333⌉ = 4 := ceil_rat_eq _ 4 (by norm_num) (by norm_num)
    simp [tilesY, h]
  obtain ⟨h0, h1, h2, h3⟩ := rowHeights_1000_333
  refine ⟨?_, ?_, by norm_num⟩
  · unfold captureFullElementRunTrace
    rw [if_neg (by rw [hW, hH]; norm_num)]
    simp [hW, hH]
  · rw [hty]
    have e4 : cumulativeY 1000 333 (3 / 2) 4
        = 0 + rowHeightPhysical 1000 333 (3 / 2) 0 + rowHeightPhysical 1000 333 (3 / 2) 1
          + rowHeightPhysical 1000 333 (3 / 2) 2 + rowHeightPhysical 1000 333 (3 / 2) 3 := rfl
    rw [e4, h0, h1, h2, h3]
    norm_num

/-- C7 amended: for dpr in 1, 1.5, 2, 3 and integer CSS sizes, both the
single path and the tiled path allocate a surface of exactly
`Math.round(w·dpr) × Math.round(h·dpr)` physical px, and for these dprs
this equals `ceil(w·dpr) × ceil(h·dpr)` (the data model's formula); the
tiled path does not allocate the ceil-accumulated §4.1 extent, which can
exceed the allocated height. -/
theorem c7_surface_round_amended (d : CaptureData) (w h : ℕ)
    (hw : d.rectW = (w : ℚ)) (hh : d.rectH = (h : ℚ))
    (hd : d.dpr = 1 ∨ d.dpr = 3 / 2 ∨ d.dpr = 2 ∨ d.dpr = 3)
    (hok : ¬(16384 < roundPhysical d.rectW d.dpr ∨ 16384 < roundPhysical d.rectH d.dpr))
    (hposW : 0 < d.rectW) (hposH : 0 < d.rectH) :
    roundPhysical d.rectW d.dpr = ⌈d.rectW * d.dpr⌉ ∧
    roundPhysical d.rectH d.dpr = ⌈d.rectH * d.dpr⌉ ∧
    (captureFullElementRunTrace d).canvasAllocs
      = [(⌈d.rectW * d.dpr⌉, ⌈d.rectH * d.dpr⌉)] ∧
    ∀ imgW imgH : ℤ, (cropImageToElementRun d imgW imgH).2
      = [(⌈d.rectW * d.dpr⌉, ⌈d.rectH * d.dpr⌉)] := by
  have hcw : roundPhysical d.rectW d.dpr = ⌈d.rectW * d.dpr⌉ := by
    rw [hw]
    exact roundPhysical_eq_ceil w d.dpr hd
  have hch : roundPhysical d.rectH d.dpr = ⌈d.rectH * d.dpr⌉ := by
    rw [hh]
    exact roundPhysical_eq_ceil h d.dpr hd
  refine ⟨hcw, hch, ?_, ?_⟩
  · unfold captureFullElementRunTrace
    rw [if_neg hok]
    simp [hcw, hch]
  · intro imgW imgH
    unfold cropImageToElementRun
    rw [if_neg (by push_neg; exact ⟨hposW, hposH⟩), if_neg hok]
    dsimp only
    split
    · split
      · simp [hcw, hch]
      · simp [hcw, hch]
    · simp [hcw, hch]

/-- Witness for C7 amended: a 300×200 element at dpr 3/2 allocates a
450×300 surface on both paths. -/
theorem c7_surface_round_amended_w :
    roundPhysical (⟨0, 0, 300, 200, 0, 0, 1000, 800, 3 / 2⟩ : CaptureData).rectW
        (⟨0, 0, 300, 200, 0, 0, 1000, 800, 3 / 2⟩ : CaptureData).dpr
      = ⌈(⟨0, 0, 300, 200, 0, 0, 1000, 800, 3 / 2⟩ : CaptureData).rectW
          * (⟨0, 0, 300, 200, 0, 0, 1000, 800, 3 / 2⟩ : CaptureData).dpr⌉ ∧
    roundPhysical (⟨0, 0, 300, 200, 0, 0, 1000, 800, 3 / 2⟩ : CaptureData).rectH
        (⟨0, 0, 300, 200, 0, 0, 1000, 800, 3 / 2⟩ : CaptureData).dpr
      = ⌈(⟨0, 0, 300, 200, 0, 0, 1000, 800, 3 / 2⟩ : CaptureData).rectH
          * (⟨0, 0, 300, 200, 0, 0, 1000, 800, 3 / 2⟩ : CaptureData).dpr⌉ ∧
    (captureFullElementRunTrace ⟨0, 0, 300, 200, 0, 0, 1000, 800, 3 / 2⟩).canvasAllocs
      = [(⌈(⟨0, 0, 300, 200, 0, 0, 1000, 800, 3 / 2⟩ : CaptureData).rectW
            * (⟨0, 0, 300, 200, 0, 0, 1000, 800, 3 / 2⟩ : CaptureData).dpr⌉,
          ⌈(⟨0, 0, 300, 200, 0, 0, 1000, 800, 3 / 2⟩ : CaptureData).rectH
            * (⟨0, 0, 300, 200, 0, 0, 1000, 800, 3 / 2⟩ : CaptureData).dpr⌉)] ∧
    ∀ imgW imgH : ℤ,
      (cropImageToElementRun ⟨0, 0, 300, 200, 0, 0, 1000, 800, 3 / 2⟩ imgW imgH).2
        = [(⌈(⟨0, 0, 300, 200, 0, 0, 1000, 800, 3 / 2⟩ : CaptureData).rectW
              * (⟨0, 0, 300, 200, 0, 0, 1000, 800, 3 / 2⟩ : CaptureData).dpr⌉,
            ⌈(⟨0, 0, 300, 200, 0, 0, 1000, 800, 3 / 2⟩ : CaptureData).rectH
              * (⟨0, 0, 300, 200, 0, 0, 1000, 800, 3 / 2⟩ : CaptureData).dpr⌉)] := by
  have hrw : roundPhysical (300 : ℚ) (3 / 2) = 450 := by
    unfold roundPhysical
    exact round_rat_eq _ 450 (by norm_num) (by norm_num)
  have hrh : roundPhysical (200 : ℚ) (3 / 2) = 300 := by
    unfold roundPhysical
    exact round_rat_eq _ 300 (by norm_num) (by norm_num)
  exact c7_surface_round_amended ⟨0, 0, 300, 200, 0, 0, 1000, 800, 3 / 2⟩ 300 200
    (by norm_num) (by norm_num) (Or.inr (Or.inl rfl))
    (by show ¬(16384 < roundPhysical (300 : ℚ) (3 / 2)
          ∨ 16384 < roundPhysical (200 : ℚ) (3 / 2))
        rw [hrw, hrh]
        norm_num)
    (by norm_num) (by norm_num)

/-! ## C3 -/

/-- One-dimensional tile cover: with tile stride `P`, total extent `W`, and
`tX` tiles bounded by `(tX - 1) * P < W ≤ tX * P`, every coordinate of
`[0, W)` lies in exactly one tile interval
`[c * P, c * P + min P (W - c * P))` and conversely. -/
lemma interval_cover (P W : ℤ) (tX : ℕ) (hP : 0 < P)
    (hub : W ≤ (tX : ℤ) * P) (hlb : ((tX : ℤ) - 1) * P < W) (x : ℤ) :
    (0 ≤ x ∧ x < W) ↔
    ∃! c : ℕ, c < tX ∧ (c : ℤ) * P ≤ x ∧
      x < (c : ℤ) * P + min P (W - (c : ℤ) * P) := by
  constructor
  · rintro ⟨hx0, hxW⟩
    have hq0 : 0 ≤ x / P := Int.ediv_nonneg hx0 hP.le
    have hcz : ((x / P).toNat : ℤ) = x / P := Int.toNat_of_nonneg hq0
    set c : ℕ := (x / P).toNat with hcdef
    have hle : (c : ℤ) * P ≤ x := by
      rw [hcz]
      exact (Int.le_ediv_iff_mul_le hP).mp (le_refl (x / P))
    have hlt : x < ((c : ℤ) + 1) * P := by
      rw [hcz]
      exact Int.lt_ediv_add_one_mul_self x hP
    have hcx : c < tX := by
      have h1 : x / P < (tX : ℤ) := by
        rw [Int.ediv_lt_iff_lt_mul hP]
        exact lt_of_lt_of_le hxW hub
      have h2 : (c : ℤ) < (tX : ℤ) := by rw [hcz]; exact h1
      exact_mod_cast h2
    refine ⟨c, ⟨hcx, hle, ?_⟩, ?_⟩
    · rw [← min_add_add_left, lt_min_iff]
      constructor
      · calc x < ((c : ℤ) + 1) * P := hlt
          _ = (c : ℤ) * P + P := by ring
      · have h3 : (c : ℤ) * P + (W - (c : ℤ) * P) = W := by ring
        rw [h3]
        exact hxW
    · rintro c' ⟨_, hle', hlt'⟩
      have h1 : x < ((c' : ℤ) + 1) * P := by
        have h2 := lt_of_lt_of_le hlt' (add_le_add_left (min_le_left _ _) _)
        linarith
      have h2 : (c' : ℤ) ≤ x / P := (Int.le_ediv_iff_mul_le hP).mpr hle'
      have h3 : x / P < (c' : ℤ) + 1 := by
        rw [Int.ediv_lt_iff_lt_mul hP]
        linarith
      have hcc : (c' : ℤ) = (c : ℤ) := by
        rw [hcz]
        exact le_antisymm h2 (Int.lt_add_one_iff.mp h3)
      exact_mod_cast hcc
  · rintro ⟨c, ⟨_, hle, hlt⟩, -⟩
    constructor
    · have h1 : (0 : ℤ) ≤ (c : ℤ) * P := by positivity
      linarith
    · have h2 := lt_of_lt_of_le hlt (add_le_add_left (min_le_right _ _) _)
      linarith

/-- The tile count `ceil(len / vp)` brackets the physical extent: under
`len * dpr = L` and `vp * dpr = P`, we get `(tilesX - 1) * P < L ≤
tilesX * P`. -/
lemma tileCountBounds (len vp dpr : ℚ) (L P : ℕ) (hL : 0 < L) (hP : 0 < P)
    (hdpr : 0 < dpr) (hLe : len * dpr = (L : ℚ)) (hPe : vp * dpr = (P : ℚ)) :
    (L : ℤ) ≤ (tilesX len vp : ℤ) * P ∧
    ((tilesX len vp : ℤ) - 1) * P < L := by
  have hPq : (0 : ℚ) < P := by exact_mod_cast hP
  have hLq : (0 : ℚ) < L := by exact_mod_cast hL
  have hvp : vp = (P : ℚ) / dpr := (eq_div_iff hdpr.ne').mpr hPe
  have hlen : len = (L : ℚ) / dpr := (eq_div_iff hdpr.ne').mpr hLe
  have hratio : len / vp = (L : ℚ) / (P : ℚ) := by
    rw [hvp, hlen]
    field_simp
  have ht : ⌈len / vp⌉ = ⌈(L : ℚ) / (P : ℚ)⌉ := by rw [hratio]
  have htpos : 0 < ⌈len / vp⌉ := by
    rw [ht]
    exact Int.ceil_pos.mpr (div_pos hLq hPq)
  have htn : ((tilesX len vp : ℤ)) = ⌈len / vp⌉ := by
    unfold tilesX
    exact Int.toNat_of_nonneg htpos.le
  constructor
  · have h1 : (L : ℚ) / (P : ℚ) ≤ (⌈len / vp⌉ : ℚ) := by
      rw [ht]
      exact Int.le_ceil _
    have h2 : (L : ℚ) ≤ (⌈len / vp⌉ : ℚ) * P := (div_le_iff₀ hPq).mp h1
    rw [htn]
    exact_mod_cast h2
  · have h1 : ((⌈len / vp⌉ : ℚ)) < (L : ℚ) / (P : ℚ) + 1 := by
      rw [ht]
      exact Int.ceil_lt_add_one _
    have h3 : (⌈len / vp⌉ : ℚ) - 1 < (L : ℚ) / P := by linarith
    have h2 : ((⌈len / vp⌉ : ℚ) - 1) * P < L := (lt_div_iff₀ hPq).mp h3
    rw [htn]
    exact_mod_cast h2

/-- Under integral physical stride (`vpW * dpr = P`), the floored
destination X of column `c` is exactly `c * P`. -/
lemma destX_geom (vpW dpr : ℚ) (P : ℕ) (hPe : vpW * dpr = (P : ℚ)) (c : ℕ) :
    destX vpW dpr c = (c : ℤ) * P := by
  unfold destX
  have h : (c : ℚ) * vpW * dpr = ((c * P : ℕ) : ℚ) := by
    push_cast
    rw [mul_assoc, hPe]
  rw [h, Int.floor_natCast]
  push_cast
  ring

/-- Under integral physical sizes, the ceiled destination width of column
`c` is exactly `min P (W - c * P)`. -/
lemma destW_geom (rectW vpW dpr : ℚ) (W P : ℕ) (hdpr : 0 ≤ dpr)
    (hWe : rectW * dpr = (W : ℚ)) (hPe : vpW * dpr = (P : ℚ)) (c : ℕ) :
    destWidth rectW vpW dpr c = min (P : ℤ) ((W : ℤ) - c * P) := by
  unfold destWidth visibleWidth
  have h2 : dpr * (rectW - c * vpW) = (W : ℚ) - (c : ℚ) * P := by
    rw [mul_sub, mul_comm dpr rectW, hWe, mul_comm dpr ((c : ℚ) * vpW),
      mul_assoc, hPe]
  have h : min vpW (rectW - c * vpW) * dpr
      = min ((P : ℚ)) ((W : ℚ) - (c : ℚ) * P) := by
    rw [mul_comm, mul_min_of_nonneg _ _ hdpr, mul_comm dpr vpW, hPe, h2]
  rw [h]
  have h3 : ((min (P : ℤ) ((W : ℤ) - c * P) : ℤ) : ℚ)
      = min ((P : ℚ)) ((W : ℚ) - (c : ℚ) * P) := by
    push_cast
    rfl
  rw [← h3, Int.ceil_intCast]

/-- The physical row height is the destination-width formula applied to
the vertical axis (the code uses the same `ceil(min(...) * dpr)`
expression for both). -/
lemma rowHeightPhysical_eq_destWidth (rectH vpH dpr : ℚ) (r : ℕ) :
    rowHeightPhysical rectH vpH dpr r = destWidth rectH vpH dpr r := rfl

/-- The row-count function is the column-count function on the vertical
axis. -/
lemma tilesY_eq_tilesX (rectH vpH : ℚ) : tilesY rectH vpH = tilesX rectH vpH := rfl

/-- Under integral physical sizes, the cumulative Y accumulator at any row
index below the row count equals `r * Q`. -/
lemma cumY_geom (rectH vpH dpr : ℚ) (H Q : ℕ) (hH : 0 < H) (hQ : 0 < Q)
    (hdpr : 0 < dpr) (hHe : rectH * dpr = (H : ℚ)) (hQe : vpH * dpr = (Q : ℚ)) :
    ∀ r : ℕ, r < tilesY rectH vpH → cumulativeY rectH vpH dpr r = (r : ℤ) * Q := by
  intro r
  induction r with
  | zero => intro _; simp [cumulativeY]
  | succ k ih =>
      intro hk1
      have hk : k < tilesY rectH vpH := Nat.lt_of_succ_lt hk1
      have hck := ih hk
      show cumulativeY rectH vpH dpr k + rowHeightPhysical rectH vpH dpr k = _
      rw [hck, rowHeightPhysical_eq_destWidth,
        destW_geom rectH vpH dpr H Q hdpr.le hHe hQe k]
      have hbound := (tileCountBounds rectH vpH dpr H Q hH hQ hdpr hHe hQe).2
      rw [← tilesY_eq_tilesX] at hbound
      have hkk : (k : ℤ) + 1 ≤ (tilesY rectH vpH : ℤ) - 1 := by
        have h1 : k + 1 < tilesY rectH vpH := hk1
        omega
      have hQle : (Q : ℤ) ≤ (H : ℤ) - k * Q := by
        have h1 : ((k : ℤ) + 1) * Q ≤ ((tilesY rectH vpH : ℤ) - 1) * Q :=
          mul_le_mul_of_nonneg_right hkk (by positivity)
        have h2 : ((k : ℤ) + 1) * Q < H := lt_of_le_of_lt h1 hbound
        linarith
      rw [min_eq_left hQle]
      push_cast
      ring

/-- A unique pair with independent coordinate predicates is the same as a
unique witness on each axis. -/
lemma existsUnique_pair_iff (A B : ℕ → Prop) :
    (∃! t : ℕ × ℕ, A t.1 ∧ B t.2) ↔ ((∃! c, A c) ∧ (∃! r, B r)) := by
  constructor
  · rintro ⟨⟨c0, r0⟩, ⟨hA, hB⟩, huniq⟩
    refine ⟨⟨c0, hA, fun c hc => ?_⟩, ⟨r0, hB, fun r hr => ?_⟩⟩
    · exact congrArg Prod.fst (huniq (c, r0) ⟨hc, hB⟩)
    · exact congrArg Prod.snd (huniq (c0, r) ⟨hA, hr⟩)
  · rintro ⟨⟨c0, hA, hcu⟩, ⟨r0, hB, hru⟩⟩
    refine ⟨(c0, r0), ⟨hA, hB⟩, ?_⟩
    rintro ⟨c, r⟩ ⟨hc, hr⟩
    rw [hcu c hc, hru r hr]

/-- C3 amended: when the physical sizes `W·dpr`, `H·dpr`, `Vw·dpr`,
`Vh·dpr` are all (positive) integers — in particular for an integer dpr
with integer CSS sizes — the tile destination rectangles (X origin
`floor(c·Vw·dpr)`, cumulative Y origin, sizes
`ceil(visible·dpr)`) cover `[0, ceil(W·dpr)) × [0, ceil(H·dpr))` exactly:
every pixel of the box lies in exactly one tile rectangle and every tile
pixel lies in the box. -/
theorem c3_tile_partition_amended (rectW rectH vpW vpH dpr : ℚ) (W H P Q : ℕ)
    (hW : 0 < W) (hH : 0 < H) (hP : 0 < P) (hQ : 0 < Q) (hdpr : 0 < dpr)
    (hWe : rectW * dpr = (W : ℚ)) (hHe : rectH * dpr = (H : ℚ))
    (hPe : vpW * dpr = (P : ℚ)) (hQe : vpH * dpr = (Q : ℚ)) (x y : ℤ) :
    (0 ≤ x ∧ x < ⌈rectW * dpr⌉ ∧ 0 ≤ y ∧ y < ⌈rectH * dpr⌉) ↔
    ∃! t : ℕ × ℕ, t.1 < tilesX rectW vpW ∧ t.2 < tilesY rectH vpH ∧
      inDestRect rectW rectH vpW vpH dpr t.1 t.2 x y := by
  have hceilW : ⌈rectW * dpr⌉ = ((W : ℕ) : ℤ) := by
    rw [hWe, Int.ceil_natCast]
  have hceilH : ⌈rectH * dpr⌉ = ((H : ℕ) : ℤ) := by
    rw [hHe, Int.ceil_natCast]
  have hbX := tileCountBounds rectW vpW dpr W P hW hP hdpr hWe hPe
  have hbY := tileCountBounds rectH vpH dpr H Q hH hQ hdpr hHe hQe
  rw [← tilesY_eq_tilesX] at hbY
  have hPz : (0 : ℤ) < (P : ℤ) := by exact_mod_cast hP
  have hQz : (0 : ℤ) < (Q : ℤ) := by exact_mod_cast hQ
  have hXiff := interval_cover (P : ℤ) (W : ℤ) (tilesX rectW vpW) hPz hbX.1 hbX.2 x
  have hYiff := interval_cover (Q : ℤ) (H : ℤ) (tilesY rectH vpH) hQz hbY.1 hbY.2 y
  have hrw : ∀ t : ℕ × ℕ,
      (t.1 < tilesX rectW vpW ∧ t.2 < tilesY rectH vpH ∧
        inDestRect rectW rectH vpW vpH dpr t.1 t.2 x y)
      ↔ ((t.1 < tilesX rectW vpW ∧ ((t.1 : ℤ) * (P : ℤ) ≤ x ∧
            x < (t.1 : ℤ) * (P : ℤ) + min (P : ℤ) ((W : ℤ) - (t.1 : ℤ) * (P : ℤ))))
         ∧ (t.2 < tilesY rectH vpH ∧ ((t.2 : ℤ) * (Q : ℤ) ≤ y ∧
            y < (t.2 : ℤ) * (Q : ℤ) + min (Q : ℤ) ((H : ℤ) - (t.2 : ℤ) * (Q : ℤ))))) := by
    rintro ⟨c, r⟩
    constructor
    · rintro ⟨hc, hr, hin⟩
      unfold inDestRect at hin
      rw [destX_geom vpW dpr P hPe c, destW_geom rectW vpW dpr W P hdpr.le hWe hPe c,
        cumY_geom rectH vpH dpr H Q hH hQ hdpr hHe hQe r hr,
        rowHeightPhysical_eq_destWidth,
        destW_geom rectH vpH dpr H Q hdpr.le hHe hQe r] at hin
      exact ⟨⟨hc, hin.1, hin.2.1⟩, ⟨hr, hin.2.2.1, hin.2.2.2⟩⟩
    · rintro ⟨⟨hc, h1, h2⟩, ⟨hr, h3, h4⟩⟩
      refine ⟨hc, hr, ?_⟩
      unfold inDestRect
      rw [destX_geom vpW dpr P hPe c, destW_geom rectW vpW dpr W P hdpr.le hWe hPe c,
        cumY_geom rectH vpH dpr H Q hH hQ hdpr hHe hQe r hr,
        rowHeightPhysical_eq_destWidth,
        destW_geom rectH vpH dpr H Q hdpr.le hHe hQe r]
      exact ⟨h1, h2, h3, h4⟩
  rw [hceilW, hceilH, existsUnique_congr hrw]
  have hsplit : (0 ≤ x ∧ x < (W : ℤ) ∧ 0 ≤ y ∧ y < (H : ℤ))
      ↔ ((0 ≤ x ∧ x < (W : ℤ)) ∧ (0 ≤ y ∧ y < (H : ℤ))) := by tauto
  rw [hsplit, hXiff, hYiff]
  exact (existsUnique_pair_iff _ _).symm

/-- Concrete evaluation of `Math.floor` on a rational. -/
lemma floor_rat_eq (q : ℚ) (n : ℤ) (h1 : (n : ℚ) ≤ q) (h2 : q < n + 1) :
    ⌊q⌋ = n :=
  Int.floor_eq_iff.mpr ⟨h1, h2⟩

/-- C3 counterexample: region 2×1, viewport 1×1, dpr 3/2.  Physical pixel
`(1, 0)` lies inside the destination rectangles of both tile `(0,0)`
(`[0,2) × [0,2)`) and tile `(1,0)` (`[1,3) × [0,2)`): adjacent columns do
not abut (`destX 1 = 1 ≠ 0 + 2`), the pixel is inside the claimed coverage
box, and no unique covering tile exists — the claimed exact cover with no
pixel written twice fails for fractional `Vw·dpr`. -/
theorem c3_fractional_dpr_overlap :
    inDestRect 2 1 1 1 (3 / 2) 0 0 1 0 ∧
    inDestRect 2 1 1 1 (3 / 2) 1 0 1 0 ∧
    destX 1 (3 / 2) 1 ≠ destX 1 (3 / 2) 0 + destWidth 2 1 (3 / 2) 0 ∧
    (0 ≤ (1 : ℤ) ∧ (1 : ℤ) < ⌈(2 : ℚ) * (3 / 2)⌉ ∧ 0 ≤ (0 : ℤ) ∧
      (0 : ℤ) < ⌈(1 : ℚ) * (3 / 2)⌉) ∧
    ¬ ∃! t : ℕ × ℕ, t.1 < tilesX 2 1 ∧ t.2 < tilesY 1 1 ∧
        inDestRect 2 1 1 1 (3 / 2) t.1 t.2 1 0 := by
  have hdx0 : destX 1 (3 / 2) 0 = 0 := by
    unfold destX
    rw [show ((0 : ℕ) : ℚ) * 1 * (3 / 2) = 0 from by norm_num]
    exact Int.floor_zero
  have hdx1 : destX 1 (3 / 2) 1 = 1 := by
    unfold destX
    rw [show ((1 : ℕ) : ℚ) * 1 * (3 / 2) = 3 / 2 from by norm_num]
    exact floor_rat_eq _ 1 (by norm_num) (by norm_num)
  have hdw0 : destWidth 2 1 (3 / 2) 0 = 2 := by
    unfold destWidth visibleWidth
    rw [show min (1 : ℚ) (2 - (0 : ℕ) * 1) = 1 from by norm_num [min_def]]
    exact ceil_rat_eq _ 2 (by norm_num) (by norm_num)
  have hdw1 : destWidth 2 1 (3 / 2) 1 = 2 := by
    unfold destWidth visibleWidth
    rw [show min (1 : ℚ) (2 - (1 : ℕ) * 1) = 1 from by norm_num [min_def]]
    exact ceil_rat_eq _ 2 (by norm_num) (by norm_num)
  have hcy : cumulativeY 1 1 (3 / 2) 0 = 0 := rfl
  have hrh : rowHeightPhysical 1 1 (3 / 2) 0 = 2 := by
    unfold rowHeightPhysical visibleHeight
    rw [show min (1 : ℚ) (1 - (0 : ℕ) * 1) = 1 from by norm_num [min_def]]
    exact ceil_rat_eq _ 2 (by norm_num) (by norm_num)
  have htx : tilesX 2 1 = 2 := by
    have h : ⌈(2 : ℚ) / 1⌉ = 2 := by
      rw [Int.ceil_eq_iff]
      norm_num
    simp [tilesX, h]
  have hty : tilesY 1 1 = 1 := by
    have h : ⌈(1 : ℚ) / 1⌉ = 1 := by
      rw [Int.ceil_eq_iff]
      norm_num
    simp [tilesY, h]
  have hin0 : inDestRect 2 1 1 1 (3 / 2) 0 0 1 0 := by
    unfold inDestRect
    rw [hdx0, hdw0, hcy, hrh]
    norm_num
  have hin1 : inDestRect 2 1 1 1 (3 / 2) 1 0 1 0 := by
    unfold inDestRect
    rw [hdx1, hdw1, hcy, hrh]
    norm_num
  refine ⟨hin0, hin1, ?_, ?_, ?_⟩
  · rw [hdx0, hdx1, hdw0]
    norm_num
  · refine ⟨by norm_num, ?_, by norm_num, ?_⟩
    · have h3 : ⌈(2 : ℚ) * (3 / 2)⌉ = 3 := by
        rw [show (2 : ℚ) * (3 / 2) = 3 from by norm_num]
        exact ceil_rat_eq _ 3 (by norm_num) (by norm_num)
      rw [h3]
      norm_num
    · have h2 : ⌈(1 : ℚ) * (3 / 2)⌉ = 2 := by
        rw [show (1 : ℚ) * (3 / 2) = 3 / 2 from by norm_num]
        exact ceil_rat_eq _ 2 (by norm_num) (by norm_num)
      rw [h2]
      norm_num
  · rintro ⟨⟨c, r⟩, -, huniq⟩
    have h0 := huniq (0, 0) ⟨by rw [htx]; norm_num, by rw [hty]; norm_num, hin0⟩
    have h1 := huniq (1, 0) ⟨by rw [htx]; norm_num, by rw [hty]; norm_num, hin1⟩
    have hcontra : ((0, 0) : ℕ × ℕ) = (1, 0) := h0.trans h1.symm
    have hfst : (0 : ℕ) = 1 := congrArg Prod.fst hcontra
    exact absurd hfst (by norm_num)

/-- Witness for C3 amended: region 3×3, viewport 2×2, dpr 2 (so physical
sizes 6, 6, strides 4, 4), at physical pixel (5, 1). -/
theorem c3_tile_partition_amended_w :
    (0 ≤ (5 : ℤ) ∧ (5 : ℤ) < ⌈(3 : ℚ) * 2⌉ ∧ 0 ≤ (1 : ℤ) ∧
      (1 : ℤ) < ⌈(3 : ℚ) * 2⌉) ↔
    ∃! t : ℕ × ℕ, t.1 < tilesX 3 2 ∧ t.2 < tilesY 3 2 ∧
      inDestRect 3 3 2 2 2 t.1 t.2 5 1 :=
  c3_tile_partition_amended 3 3 2 2 2 6 6 4 4 (by norm_num) (by norm_num)
    (by norm_num) (by norm_num) (by norm_num) (by norm_num) (by norm_num)
    (by norm_num) (by norm_num) 5 1
